import Mathlib

/-!
Verification development for the clipboard-history search workflow
(src/workflow/find_in_history_archive.py).

The Python script is embedded shallowly:

* `convert_dakuten` (lines 10-16) becomes `markMap`, `nfcKana`,
  `normalizeKw` and, on dynamically typed inputs, `convert_dakuten`.
* `search_clipboard` (lines 19-42) becomes `search_clipboard`
  (the pure row-processing part) and `search_clipboard_run`
  (the same computation together with the connection lifecycle and the
  possible sqlite exceptions).
* The `__main__` block (lines 45-60) becomes `main_sorted`,
  `main_items` and `main_run`.

External library behaviour that the script relies on is embedded from
its documented semantics: the SQLite `LIKE` operator (ASCII
case-insensitive, `%`/`_` wildcards, as used by the query on line 24),
Python `unicodedata.normalize("NFC", ...)` restricted to the canonical
compositions reachable from the two kana combining marks the script
introduces, `datetime.fromtimestamp(...).strftime(...)` with the local
timezone modelled as a fixed UTC offset in seconds, and `json.dumps`
for the value shapes the script emits.
-/

/-- ASCII lower-casing of a single character: the folding applied by the
default SQLite `LIKE` comparison (only the letters A-Z fold). -/
def asciiLower (c : Char) : Char :=
  if 65 ≤ c.toNat && c.toNat ≤ 90 then Char.ofNat (c.toNat + 32) else c

/-- Run a predicate over a list and all of its suffixes and take the
disjunction (helper for the `%` wildcard of `LIKE`). -/
def anySuffix (f : List Char → Bool) : List Char → Bool
  | [] => f []
  | c :: ts => f (c :: ts) || anySuffix f ts

/-- Semantics of the SQLite `LIKE` operator (no ESCAPE clause), as used
by the query on line 24 of the script: `%` matches any character
sequence, `_` matches one character, any other pattern character
matches ASCII case-insensitively. -/
def likeMatch : List Char → List Char → Bool
  | [], t => t.isEmpty
  | p :: ps, t =>
    if p = '%' then anySuffix (fun u => likeMatch ps u) t
    else
      match t with
      | [] => false
      | c :: ts =>
        if p = '_' then likeMatch ps ts
        else (asciiLower p == asciiLower c) && likeMatch ps ts

/-- ASCII case-insensitive test that the first list is an initial
segment of the second. -/
def ciLe : List Char → List Char → Bool
  | [], _ => true
  | _ :: _, [] => false
  | a :: as, b :: bs => (asciiLower a == asciiLower b) && ciLe as bs

/-- ASCII case-insensitive containment: the needle occurs somewhere in
the haystack. -/
def ciHas (n : List Char) : List Char → Bool
  | [] => ciLe n []
  | c :: hs => ciLe n (c :: hs) || ciHas n hs

/-- Case-sensitive test that the first list is an initial segment of the
second (spec vocabulary: exact matching). -/
def csLe : List Char → List Char → Bool
  | [], _ => true
  | _ :: _, [] => false
  | a :: as, b :: bs => (a == b) && csLe as bs

/-- Case-sensitive substring containment. This is the matching policy as
worded by the spec ("case-sensitive substring containment match"), kept
separate from the `LIKE`-based matching the code actually performs so
the two can be compared. -/
def csHas (n : List Char) : List Char → Bool
  | [] => csLe n []
  | c :: hs => csLe n (c :: hs) || csHas n hs

/-- A keyword is wildcard-free when it contains neither `%` nor `_`. -/
def noWild (kw : List Char) : Bool :=
  kw.all (fun c => (c != '%') && (c != '_'))

/-- The two `re.sub` calls on lines 14-15: the spacing voiced sound mark
U+309B becomes the combining mark U+3099 and the spacing semi-voiced
sound mark U+309C becomes the combining mark U+309A; every other
character is untouched. -/
def markMap (c : Char) : Char :=
  if c = '゛' then '゙'
  else if c = '゜' then '゚'
  else c

/-- The Unicode canonical compositions whose second character is U+3099
or U+309A: precomposed voiced/semi-voiced kana. Any other pair does not
compose. -/
def composeKana : Char → Char → Option Char
  | 'う', '゙' => some 'ゔ'
  | 'か', '゙' => some 'が'
  | 'き', '゙' => some 'ぎ'
  | 'く', '゙' => some 'ぐ'
  | 'け', '゙' => some 'げ'
  | 'こ', '゙' => some 'ご'
  | 'さ', '゙' => some 'ざ'
  | 'し', '゙' => some 'じ'
  | 'す', '゙' => some 'ず'
  | 'せ', '゙' => some 'ぜ'
  | 'そ', '゙' => some 'ぞ'
  | 'た', '゙' => some 'だ'
  | 'ち', '゙' => some 'ぢ'
  | 'つ', '゙' => some 'づ'
  | 'て', '゙' => some 'で'
  | 'と', '゙' => some 'ど'
  | 'は', '゙' => some 'ば'
  | 'ひ', '゙' => some 'び'
  | 'ふ', '゙' => some 'ぶ'
  | 'へ', '゙' => some 'べ'
  | 'ほ', '゙' => some 'ぼ'
  | 'ゝ', '゙' => some 'ゞ'
  | 'ウ', '゙' => some 'ヴ'
  | 'カ', '゙' => some 'ガ'
  | 'キ', '゙' => some 'ギ'
  | 'ク', '゙' => some 'グ'
  | 'ケ', '゙' => some 'ゲ'
  | 'コ', '゙' => some 'ゴ'
  | 'サ', '゙' => some 'ザ'
  | 'シ', '゙' => some 'ジ'
  | 'ス', '゙' => some 'ズ'
  | 'セ', '゙' => some 'ゼ'
  | 'ソ', '゙' => some 'ゾ'
  | 'タ', '゙' => some 'ダ'
  | 'チ', '゙' => some 'ヂ'
  | 'ツ', '゙' => some 'ヅ'
  | 'テ', '゙' => some 'デ'
  | 'ト', '゙' => some 'ド'
  | 'ハ', '゙' => some 'バ'
  | 'ヒ', '゙' => some 'ビ'
  | 'フ', '゙' => some 'ブ'
  | 'ヘ', '゙' => some 'ベ'
  | 'ホ', '゙' => some 'ボ'
  | 'ワ', '゙' => some 'ヷ'
  | 'ヰ', '゙' => some 'ヸ'
  | 'ヱ', '゙' => some 'ヹ'
  | 'ヲ', '゙' => some 'ヺ'
  | 'ヽ', '゙' => some 'ヾ'
  | 'は', '゚' => some 'ぱ'
  | 'ひ', '゚' => some 'ぴ'
  | 'ふ', '゚' => some 'ぷ'
  | 'へ', '゚' => some 'ぺ'
  | 'ほ', '゚' => some 'ぽ'
  | 'ハ', '゚' => some 'パ'
  | 'ヒ', '゚' => some 'ピ'
  | 'フ', '゚' => some 'プ'
  | 'ヘ', '゚' => some 'ペ'
  | 'ホ', '゚' => some 'ポ'
  | _, _ => none

/-- Left-to-right canonical composition pass: the effect of
`unicodedata.normalize("NFC", ...)` (line 16) on text whose only
combining marks are U+3099/U+309A; text without such marks is left
unchanged, which matches NFC on already-composed input. -/
def nfcKana : List Char → List Char
  | [] => []
  | a :: rest => nfcKanaGo a rest
where
  /-- Compose the pending character with the next one when possible. -/
  nfcKanaGo : Char → List Char → List Char
  | a, [] => [a]
  | a, b :: rest =>
    match composeKana a b with
    | some c => nfcKanaGo c rest
    | none => a :: nfcKanaGo b rest

/-- The text-to-text core of `convert_dakuten` (lines 14-16): replace the
two spacing marks by their combining forms, then canonically compose. -/
def normalizeKw (s : String) : String :=
  String.mk (nfcKana (s.data.map markMap))

/-- A dynamically typed Python value, as far as this script needs one. -/
inductive PyVal where
  | str (s : String)
  | int (n : Int)
  | boolV (b : Bool)
  | noneV
deriving DecidableEq

/-- Whether a dynamic value is a Python `str`. -/
def PyVal.isStr : PyVal → Bool
  | PyVal.str _ => true
  | _ => false

/-- Lines 10-16 of the script on a dynamically typed argument: for a
`str` the two substitutions and NFC run and the result is returned; for
every other type the `if not type(chars) == str` branch executes `pass`
and control falls off the end of the function, so Python returns
`None`. -/
def convert_dakuten : PyVal → PyVal
  | PyVal.str s => PyVal.str (normalizeKw s)
  | _ => PyVal.noneV

/-- A row of the `clipboard` table as fetched on line 24: the `item`,
`ts`, `apppath` and `app` columns. The two application columns may be
NULL, which `sqlite3` surfaces as Python `None`. -/
structure Row where
  item : String
  ts : Int
  apppath : Option String
  app : Option String

/-- A scalar JSON value as produced by the script. -/
inductive JAtom where
  | str (s : String)
  | int (n : Int)
  | boolV (b : Bool)
  | null

/-- A value stored under a key of one of the script's result
dictionaries: either a scalar or the flat `icon` object. -/
inductive JVal where
  | atom (a : JAtom)
  | obj (kvs : List (String × JAtom))

/-- A Python dict with string keys in insertion order. -/
abbrev Dict := List (String × JVal)

/-- Rendering of an optional column value inside an f-string: Python
formats `None` as the text `None`. -/
def pyShow : Option String → String
  | none => "None"
  | some s => s

/-- JSON image of an optional column value: `None` serializes as
`null`. -/
def optAtom : Option String → JAtom
  | none => JAtom.null
  | some s => JAtom.str s

/-- Seconds between the Unix epoch and the store's reference epoch
(2001-01-01), the literal `978307200` on line 34. -/
def refEpochShift : Int := 978307200

/-- Two-digit zero padding, as `%m`, `%d`, `%M` and `%S` render. -/
def pad2 (n : Nat) : String :=
  if n < 10 then "0" ++ toString n else toString n

/-- Proleptic Gregorian date for a count of days since 1970-01-01
(civil-from-days). Returns (year, month, day). -/
def civilFromDays (z : Nat) : Nat × Nat × Nat :=
  let z2 := z + 719468
  let era := z2 / 146097
  let doe := z2 % 146097
  let yoe := (doe - doe / 1460 + doe / 36524 - doe / 146096) / 365
  let y := yoe + era * 400
  let doy := doe - (365 * yoe + yoe / 4 - yoe / 100)
  let mp := (5 * doy + 2) / 153
  let d := doy - (153 * mp + 2) / 5 + 1
  let m := if mp < 10 then mp + 3 else mp - 9
  (if m ≤ 2 then y + 1 else y, m, d)

/-- The `%Y-%m-%d` part of the format string on line 34. -/
def dateStr (s : Nat) : String :=
  let ymd := civilFromDays (s / 86400)
  toString ymd.1 ++ "-" ++ pad2 ymd.2.1 ++ "-" ++ pad2 ymd.2.2

/-- Hour on the 12-hour clock for a seconds-of-epoch value: `%-I`, the
hour without a leading zero. -/
def hourTwelve (s : Nat) : Nat :=
  if s % 86400 / 3600 % 12 = 0 then 12 else s % 86400 / 3600 % 12

/-- The `%p` field: `AM` before noon, `PM` from noon on. -/
def meridiem (s : Nat) : String :=
  if s % 86400 / 3600 < 12 then "AM" else "PM"

/-- The `%-I:%M:%S %p` part of the format string on line 34. -/
def clockStr (s : Nat) : String :=
  toString (hourTwelve s) ++ ":" ++ pad2 (s % 86400 % 3600 / 60) ++ ":"
    ++ pad2 (s % 86400 % 60) ++ " " ++ meridiem s

/-- strftime('%Y-%m-%d %-I:%M:%S %p') on a count of seconds. -/
def fmtEpoch (s : Nat) : String :=
  dateStr s ++ " " ++ clockStr s

/-- Line 34's `datetime.datetime.fromtimestamp(ts + 978307200)` followed
by `strftime`: the stored timestamp is shifted by the reference-epoch
constant and rendered in the local timezone, modelled as the fixed UTC
offset `tz` in seconds. -/
def fmtLocal (tz : Int) (ts : Int) : String :=
  fmtEpoch (ts + refEpochShift + tz).toNat

/-- The conditional line-count piece of the f-string on line 34: present
exactly when `item.count('\n')` is non-zero, showing one more than the
number of line breaks. -/
def linesPart (item : String) : String :=
  let nl := item.data.count '\n'
  if nl ≠ 0 then toString (nl + 1) ++ " lines, " else ""

/-- The full `subtitle` value of line 34. -/
def subtitleOf (tz : Int) (r : Row) : String :=
  linesPart r.item ++ toString r.item.length ++ " characters, copied at "
    ++ fmtLocal tz r.ts ++ " from " ++ pyShow r.app

/-- Python's `item[:120]`: the first 120 characters. -/
def strTake (s : String) (n : Nat) : String :=
  String.mk (s.data.take n)

/-- The `title` of lines 29: the content truncated to 120 characters
when longer, otherwise the content itself. -/
def titleOf (item : String) : String :=
  if 120 < item.length then strTake item 120 else item

/-- The dictionary appended for one fetched row (lines 30-39), keys in
insertion order. -/
def mkItem (tz : Int) (r : Row) : Dict :=
  [("title", JVal.atom (JAtom.str (titleOf r.item))),
   ("arg", JVal.atom (JAtom.str r.item)),
   ("timestamp", JVal.atom (JAtom.int r.ts)),
   ("subtitle", JVal.atom (JAtom.str (subtitleOf tz r))),
   ("icon", JVal.obj [("path", optAtom r.apppath), ("type", JAtom.str "fileicon")])]

/-- The `LIKE` pattern bound on line 24: `'%' + convert_dakuten(keyword)
+ '%'`. -/
def patOf (keyword : String) : List Char :=
  '%' :: ((normalizeKw keyword).data ++ ['%'])

/-- The row-processing part of `search_clipboard` (lines 24-42) given
the table contents in fetch order: the rows whose `item` matches the
`LIKE` pattern, each mapped to its result dictionary. -/
def search_clipboard (keyword : String) (rows : List Row) (tz : Int) : List Dict :=
  (rows.filter (fun r => likeMatch (patOf keyword) r.item.data)).map (mkItem tz)

/-- Exceptions the sqlite3 calls of `search_clipboard` can raise:
`sqlite3.OperationalError` from `connect` when the store path cannot be
opened, and from `execute` when the query fails. -/
inductive PyExn where
  | storeUnavailable
  | queryError
deriving DecidableEq

/-- Result of running a piece of Python code: a value, or a propagating
exception. -/
inductive PyResult (α : Type) where
  | ok (a : α)
  | exn (e : PyExn)

/-- Whether a run ended in a propagating exception. -/
def PyResult.isExn : PyResult α → Bool
  | PyResult.ok _ => false
  | PyResult.exn _ => true

/-- Connection lifecycle events of one `search_clipboard` invocation. -/
inductive Event where
  | openEv
  | queryEv
  | closeEv
deriving DecidableEq

/-- The state of the store behind `db_path`: opening can fail, the query
can fail (for instance when the `clipboard` table is missing), or the
query yields the table's rows. -/
inductive Store where
  | unavailable
  | noTable
  | table (rows : List Row)

/-- One whole invocation of `search_clipboard` (lines 19-42): result
value or propagating exception, paired with the ordered connection
events that occurred. The function body has no try/finally, so
`conn.close()` on line 41 runs only when `execute` did not raise. -/
def search_clipboard_run (keyword : String) (st : Store) (tz : Int) :
    PyResult (List Dict) × List Event :=
  match st with
  | Store.unavailable => (PyResult.exn PyExn.storeUnavailable, [])
  | Store.noTable => (PyResult.exn PyExn.queryError, [Event.openEv])
  | Store.table rows =>
      (PyResult.ok (search_clipboard keyword rows tz),
       [Event.openEv, Event.queryEv, Event.closeEv])

/-- The sort key lookup `x['timestamp']` of line 53. -/
def getTs (d : Dict) : Int :=
  match List.lookup "timestamp" d with
  | some (JVal.atom (JAtom.int n)) => n
  | _ => 0

/-- Line 53's ordering: `sorted(..., key=lambda x: x['timestamp'],
reverse=True)` places larger timestamps first. -/
def tsGe (a b : Dict) : Prop := getTs b ≤ getTs a

instance : DecidableRel tsGe :=
  fun a b => inferInstanceAs (Decidable (getTs b ≤ getTs a))

instance : IsTotal Dict tsGe := ⟨fun a b => Int.le_total (getTs b) (getTs a)⟩

instance : IsTrans Dict tsGe := ⟨fun _ _ _ h1 h2 => le_trans h2 h1⟩

/-- Line 56's `dict_.pop('timestamp')`: the `timestamp` key is removed
from a result dictionary before output. -/
def dropTs (d : Dict) : Dict :=
  d.filter (fun kv => kv.fst != "timestamp")

/-- Line 53: the search results sorted by timestamp, most recent first
(Python's `sorted` is a stable sort; a stable sort by a total preorder
is unique, so insertion sort realizes it). -/
def main_sorted (keyword : String) (rows : List Row) (tz : Int) : List Dict :=
  List.insertionSort tsGe (search_clipboard keyword rows tz)

/-- Lines 53-58: the `items` array of the output envelope — sorted
results with the `timestamp` key popped. -/
def main_items (keyword : String) (rows : List Row) (tz : Int) : List Dict :=
  (main_sorted keyword rows tz).map dropTs

/-- Hexadecimal digit in lower case, as `json.dumps` emits in
escapes. -/
def hexDig (n : Nat) : Char :=
  if n < 10 then Char.ofNat (48 + n) else Char.ofNat (87 + n)

/-- Four-digit hexadecimal rendering, for a `\uXXXX` escape. -/
def hex4 (n : Nat) : String :=
  String.mk [hexDig (n / 4096 % 16), hexDig (n / 256 % 16),
             hexDig (n / 16 % 16), hexDig (n % 16)]

/-- Character escaping of `json.dumps` with its default
`ensure_ascii=True`: quote, backslash and the named control characters
get two-character escapes, other control characters and every
non-ASCII character become `\uXXXX` (a surrogate pair beyond the basic
plane), the rest pass through. -/
def escChar (c : Char) : String :=
  if c = '"' then "\\\""
  else if c = '\\' then "\\\\"
  else if c = '\n' then "\\n"
  else if c = '\t' then "\\t"
  else if c = '\r' then "\\r"
  else if c.toNat = 8 then "\\b"
  else if c.toNat = 12 then "\\f"
  else if c.toNat < 32 then "\\u" ++ hex4 c.toNat
  else if c.toNat < 128 then String.mk [c]
  else if c.toNat < 65536 then "\\u" ++ hex4 c.toNat
  else
    "\\u" ++ hex4 (55296 + (c.toNat - 65536) / 1024)
      ++ "\\u" ++ hex4 (56320 + (c.toNat - 65536) % 1024)

/-- JSON string literal, `json.dumps` style. -/
def encodeStr (s : String) : String :=
  "\"" ++ String.join (s.data.map escChar) ++ "\""

/-- Comma-space separated join: the default `json.dumps` item
separator. -/
def joinComma : List String → String
  | [] => ""
  | [s] => s
  | s :: rest => s ++ ", " ++ joinComma rest

/-- Serialization of a scalar value. -/
def encodeAtom : JAtom → String
  | JAtom.str s => encodeStr s
  | JAtom.int n => toString n
  | JAtom.boolV b => if b then "true" else "false"
  | JAtom.null => "null"

/-- Serialization of a dictionary value. -/
def encodeJVal : JVal → String
  | JVal.atom a => encodeAtom a
  | JVal.obj kvs =>
      "\x7b" ++ joinComma (kvs.map (fun kv => encodeStr kv.1 ++ ": " ++ encodeAtom kv.2)) ++ "\x7d"

/-- Serialization of one result dictionary, keys in insertion order as
`json.dumps` keeps them. -/
def encodeDict (d : Dict) : String :=
  "\x7b" ++ joinComma (d.map (fun kv => encodeStr kv.1 ++ ": " ++ encodeJVal kv.2)) ++ "\x7d"

/-- Line 60's `json.dumps(response_dict)` for the envelope
`{'skipknowledge': True, 'items': [...]}` built on lines 51-58. -/
def encodeEnvelope (items : List Dict) : String :=
  "\x7b\"skipknowledge\": true, \"items\": ["
    ++ joinComma (items.map encodeDict) ++ "]\x7d"

/-- The whole `__main__` block (lines 45-60): run the search against the
store; on success write the serialized envelope to stdout, otherwise
let the exception propagate (non-zero process exit). -/
def main_run (keyword : String) (st : Store) (tz : Int) : PyResult String :=
  match (search_clipboard_run keyword st tz).1 with
  | PyResult.exn e => PyResult.exn e
  | PyResult.ok items =>
      PyResult.ok (encodeEnvelope ((List.insertionSort tsGe items).map dropTs))

/-! Helper lemmas. -/

/-- Popping the `timestamp` key really removes it: no lookup finds it
afterwards. -/
theorem lookup_dropTs (d : Dict) : List.lookup "timestamp" (dropTs d) = none := by
  induction d with
  | nil => rfl
  | cons kv rest ih =>
    by_cases h : kv.fst = "timestamp"
    · simpa [dropTs, List.filter_cons, h] using ih
    · have hb : (("timestamp" : String) == kv.fst) = false := by
        exact beq_eq_false_iff_ne.mpr (fun he => h he.symm)
      simpa [dropTs, List.filter_cons, h, List.lookup, hb] using ih

/-- The truncated title is always the 120-character cut of the
content. -/
theorem titleOf_eq_take (s : String) : titleOf s = strTake s 120 := by
  unfold titleOf
  by_cases h : 120 < s.length
  · rw [if_pos h]
  · rw [if_neg h]
    show s = String.mk (s.data.take 120)
    have hle : s.data.length ≤ 120 := Nat.le_of_not_lt h
    rw [List.take_of_length_le hle]

/-- The truncated title never exceeds 120 characters. -/
theorem strTake_le (s : String) : (strTake s 120).length ≤ 120 := by
  show (s.data.take 120).length ≤ 120
  rw [List.length_take]
  exact Nat.min_le_left _ _

/-- `anySuffix` only looks at the pointwise behaviour of its
predicate. -/
theorem anySuffix_congr (f g : List Char → Bool) (h : ∀ u, f u = g u) :
    ∀ t, anySuffix f t = anySuffix g t := by
  intro t
  induction t with
  | nil => simpa [anySuffix] using h []
  | cons c ts ih => simp [anySuffix, h (c :: ts), ih]

/-- A bare `%` pattern accepts every text. -/
theorem anySuffix_isEmpty (t : List Char) :
    anySuffix (fun u => List.isEmpty u) t = true := by
  induction t with
  | nil => rfl
  | cons c ts ih => simp [anySuffix, ih]

/-- A wildcard-free pattern followed by `%` accepts exactly the texts
that start (case-insensitively) with the pattern. -/
theorem likeMatch_append_wild (kw : List Char) (h : noWild kw = true) :
    ∀ t, likeMatch (kw ++ ['%']) t = ciLe kw t := by
  induction kw with
  | nil =>
    intro t
    show likeMatch ['%'] t = true
    have h1 : likeMatch ['%'] t = anySuffix (fun u => likeMatch [] u) t := by
      simp [likeMatch]
    have h2 : anySuffix (fun u => likeMatch [] u) t
        = anySuffix (fun u => List.isEmpty u) t :=
      anySuffix_congr _ _ (fun u => by simp [likeMatch]) t
    rw [h1, h2, anySuffix_isEmpty]
  | cons k ks ih =>
    intro t
    have hk : (((k != '%') && (k != '_')) && List.all ks (fun c => (c != '%') && (c != '_'))) = true := by
      have h' := h
      unfold noWild at h'
      rwa [List.all_cons] at h'
    obtain ⟨hpair, hks0⟩ := Bool.and_eq_true_iff.mp hk
    obtain ⟨hp, hu⟩ := Bool.and_eq_true_iff.mp hpair
    have hk1 : ¬ k = '%' := by simpa using hp
    have hk2 : ¬ k = '_' := by simpa using hu
    have hks : noWild ks = true := hks0
    cases t with
    | nil => simp [likeMatch, ciLe, hk1]
    | cons c ts => simp [likeMatch, ciLe, hk1, hk2, ih hks ts]

/-- The `%kw%` pattern of the script's query, for a wildcard-free
keyword, is exactly ASCII case-insensitive substring containment. -/
theorem likeMatch_pat_ciHas (kw : List Char) (h : noWild kw = true) :
    ∀ t, likeMatch ('%' :: (kw ++ ['%'])) t = ciHas kw t := by
  intro t
  induction t with
  | nil =>
    show likeMatch ('%' :: (kw ++ ['%'])) [] = ciHas kw []
    have h1 : likeMatch ('%' :: (kw ++ ['%'])) []
        = likeMatch (kw ++ ['%']) [] := by
      simp [likeMatch, anySuffix]
    rw [h1, likeMatch_append_wild kw h]
    rfl
  | cons c ts ih =>
    have h1 : likeMatch ('%' :: (kw ++ ['%'])) (c :: ts)
        = (likeMatch (kw ++ ['%']) (c :: ts)
            || anySuffix (fun u => likeMatch (kw ++ ['%']) u) ts) := by
      simp [likeMatch, anySuffix]
    have h2 : likeMatch ('%' :: (kw ++ ['%'])) ts
        = anySuffix (fun u => likeMatch (kw ++ ['%']) u) ts := by
      simp [likeMatch]
    rw [h1, ← h2, ih, likeMatch_append_wild kw h]
    rfl

/-! Claim theorems. -/

/-- C1 (counterexample): the match is not a case-sensitive substring
containment. With the store holding one record of content `A` and
keyword `a`, the record is returned although `A` does not contain the
(normalized) keyword `a` as a case-sensitive substring. -/
theorem C1_counterexample :
    (search_clipboard "a" [Row.mk "A" 0 none none] 0).length = 1 ∧
    csHas (normalizeKw "a").data ("A" : String).data = false :=
  ⟨rfl, rfl⟩

/-- C1 (amended): a record is returned if and only if its content
matches the SQL LIKE pattern built from the post-normalization keyword;
for keywords containing no LIKE wildcard this is ASCII
case-insensitive (not case-sensitive) substring containment of the
normalized keyword in the content. -/
theorem C1_like_ci_containment (kw : String) (rows : List Row) (tz : Int)
    (h : noWild (normalizeKw kw).data = true) :
    search_clipboard kw rows tz
      = (rows.filter (fun r => ciHas (normalizeKw kw).data r.item.data)).map (mkItem tz) := by
  unfold search_clipboard
  congr 1
  apply List.filter_congr
  intro r _
  exact likeMatch_pat_ciHas _ h _

/-- C1 witness: the amended statement instantiated at keyword `a` and a
one-record store. -/
theorem C1_witness :
    noWild (normalizeKw "a").data = true ∧
    search_clipboard "a" [Row.mk "A" 0 none none] 0
      = ([Row.mk "A" 0 none none].filter
          (fun r => ciHas (normalizeKw "a").data r.item.data)).map (mkItem 0) :=
  ⟨rfl, C1_like_ci_containment "a" [Row.mk "A" 0 none none] 0 rfl⟩

/-- C2 (counterexample): for a matched record without source-app
metadata (both columns NULL) the subtitle still ends in ` from None`
and the serialized item still carries an `icon` entry whose path is
null, so neither the ` from <app>` suffix nor the icon field is
conditional on the metadata being present. -/
theorem C2_counterexample :
    (search_clipboard "x" [Row.mk "x" 0 none none] 0).map
        (fun d => List.lookup "subtitle" d)
      = [some (JVal.atom (JAtom.str
          "1 characters, copied at 2001-01-01 12:00:00 AM from None"))] ∧
    csHas (" from None" : String).data
        ("1 characters, copied at 2001-01-01 12:00:00 AM from None" : String).data = true ∧
    (search_clipboard "x" [Row.mk "x" 0 none none] 0).map
        (fun d => List.lookup "icon" d)
      = [some (JVal.obj [("path", JAtom.null), ("type", JAtom.str "fileicon")])] :=
  ⟨rfl, rfl, rfl⟩

/-- C2 (amended): every matched record's subtitle is the line-count
piece (present exactly when the content has at least one line break,
showing line breaks + 1), then the character count, the formatted
timestamp, and always a ` from <app>` tail in which an absent source
app renders as `None`; the icon entry is always emitted, with a null
path when the source application path is absent. -/
theorem C2_subtitle_structure (kw : String) (rows : List Row) (tz : Int) (r : Row) :
    search_clipboard kw rows tz
      = (rows.filter (fun x => likeMatch (patOf kw) x.item.data)).map (mkItem tz) ∧
    List.lookup "subtitle" (mkItem tz r)
      = some (JVal.atom (JAtom.str (subtitleOf tz r))) ∧
    subtitleOf tz r
      = linesPart r.item ++ toString r.item.length ++ " characters, copied at "
          ++ fmtLocal tz r.ts ++ " from " ++ pyShow r.app ∧
    (linesPart r.item = "" ↔ r.item.data.count '\n' = 0) ∧
    (r.item.data.count '\n' ≠ 0 →
      linesPart r.item = toString (r.item.data.count '\n' + 1) ++ " lines, ") ∧
    List.lookup "icon" (mkItem tz r)
      = some (JVal.obj [("path", optAtom r.apppath), ("type", JAtom.str "fileicon")]) := by
  refine ⟨rfl, rfl, rfl, ?_, ?_, rfl⟩
  · unfold linesPart
    by_cases h : r.item.data.count '\n' = 0
    · simp [h]
    · rw [if_pos h]
      constructor
      · intro he
        have hlen := congrArg String.length he
        rw [String.length_append] at hlen
        rw [show ((" lines, " : String).length) = 8 from rfl] at hlen
        rw [show (("" : String).length) = 0 from rfl] at hlen
        omega
      · intro h0
        exact absurd h0 h
  · intro h
    unfold linesPart
    rw [if_pos h]

/-- C2 witness: the amended statement instantiated on a two-line
content, with the line-count piece evaluated. -/
theorem C2_witness :
    ((Row.mk "a\nb" 7 none none).item.data.count '\n' ≠ 0) ∧
    linesPart "a\nb" = "2 lines, " := by
  refine ⟨by decide, ?_⟩
  have h := (C2_subtitle_structure "a" [] 0 (Row.mk "a\nb" 7 none none)).2.2.2.2.1 (by decide)
  exact h.trans (by decide)

/-- C3 (counterexample): on the non-text input `5` the normalization
step returns Python `None`, not its input unchanged. -/
theorem C3_counterexample :
    convert_dakuten (PyVal.int 5) = PyVal.noneV ∧ PyVal.noneV ≠ PyVal.int 5 :=
  ⟨rfl, by decide⟩

/-- C3 (amended): for every non-text input the normalization step falls
through without raising and returns Python `None` (not the input
itself). -/
theorem C3_nonstring_returns_none (v : PyVal) (h : v.isStr = false) :
    convert_dakuten v = PyVal.noneV := by
  cases v with
  | str s => simp [PyVal.isStr] at h
  | int n => rfl
  | boolV b => rfl
  | noneV => rfl

/-- C3 witness: the amended statement at the integer input `7`. -/
theorem C3_witness :
    PyVal.isStr (PyVal.int 7) = false ∧ convert_dakuten (PyVal.int 7) = PyVal.noneV :=
  ⟨rfl, C3_nonstring_returns_none (PyVal.int 7) rfl⟩

/-- C4 (counterexample): on the exit path where the query raises (store
open succeeds, `execute` fails), the invocation ends in a propagating
exception having opened the connection without ever closing it, so the
connection is not released on all exit paths. -/
theorem C4_counterexample :
    (search_clipboard_run "k" Store.noTable 0).1.isExn = true ∧
    (search_clipboard_run "k" Store.noTable 0).2 = [Event.openEv] ∧
    Event.closeEv ∉ (search_clipboard_run "k" Store.noTable 0).2 :=
  ⟨rfl, rfl, by decide⟩

/-- C4 (amended): a successful invocation performs exactly one
connection-open, one query and one connection-close, in that order; on
the path where the query raises, the connection is opened but not
closed before the exception propagates. -/
theorem C4_connection_trace (kw kw2 : String) (rows : List Row) (tz tz2 : Int) :
    (search_clipboard_run kw (Store.table rows) tz).2
      = [Event.openEv, Event.queryEv, Event.closeEv] ∧
    (search_clipboard_run kw2 Store.noTable tz2).2 = [Event.openEv] ∧
    (search_clipboard_run kw2 Store.noTable tz2).1.isExn = true :=
  ⟨rfl, rfl, rfl⟩

/-- C5: the sorted list of line 53 is ordered by timestamp descending,
and after line 56 pops the `timestamp` key no output item carries one. -/
theorem C5_sorted_no_timestamp (kw : String) (rows : List Row) (tz : Int) :
    List.Pairwise (fun a b => getTs b ≤ getTs a) (main_sorted kw rows tz) ∧
    (main_items kw rows tz).all (fun d => (List.lookup "timestamp" d).isNone) = true := by
  constructor
  · exact List.sorted_insertionSort tsGe _
  · rw [List.all_eq_true]
    intro d hd
    have hd2 : d ∈ (main_sorted kw rows tz).map dropTs := hd
    obtain ⟨d0, _, rfl⟩ := List.mem_map.mp hd2
    show (List.lookup "timestamp" (dropTs d0)).isNone = true
    rw [lookup_dropTs]
    rfl

/-- C6: when the store cannot be opened the invocation fails with the
store-unavailable exception; when the query succeeds but matches no
record, the program succeeds with the exact serialized envelope of an
empty item list. -/
theorem C6_unavailable_and_empty :
    (∀ kw tz, main_run kw Store.unavailable tz = PyResult.exn PyExn.storeUnavailable) ∧
    (∀ kw rows tz, search_clipboard kw rows tz = [] →
      main_run kw (Store.table rows) tz
        = PyResult.ok "\x7b\"skipknowledge\": true, \"items\": []\x7d") := by
  constructor
  · intro kw tz
    rfl
  · intro kw rows tz h
    show PyResult.ok (encodeEnvelope
        ((List.insertionSort tsGe (search_clipboard kw rows tz)).map dropTs)) = _
    rw [h]
    rfl

/-- C6 witness: a keyword matching no record of a concrete store yields
exactly the empty-items envelope. -/
theorem C6_witness :
    search_clipboard "zz" [Row.mk "hello" 5 none none] 0 = [] ∧
    main_run "zz" (Store.table [Row.mk "hello" 5 none none]) 0
      = PyResult.ok "\x7b\"skipknowledge\": true, \"items\": []\x7d" := by
  have h : search_clipboard "zz" [Row.mk "hello" 5 none none] 0 = [] := rfl
  exact ⟨h, C6_unavailable_and_empty.2 "zz" [Row.mk "hello" 5 none none] 0 h⟩

/-- C7: every returned item's title is the first 120 characters of the
record content, hence never longer than 120 characters, and equals the
whole content whenever the content has at most 120 characters. -/
theorem C7_title_truncation (kw : String) (rows : List Row) (tz : Int) (r : Row) :
    search_clipboard kw rows tz
      = (rows.filter (fun x => likeMatch (patOf kw) x.item.data)).map (mkItem tz) ∧
    List.lookup "title" (mkItem tz r) = some (JVal.atom (JAtom.str (strTake r.item 120))) ∧
    (strTake r.item 120).length ≤ 120 ∧
    (r.item.length ≤ 120 → titleOf r.item = r.item) := by
  refine ⟨rfl, ?_, strTake_le r.item, ?_⟩
  · show some (JVal.atom (JAtom.str (titleOf r.item)))
      = some (JVal.atom (JAtom.str (strTake r.item 120)))
    rw [titleOf_eq_take]
  · intro h
    unfold titleOf
    rw [if_neg (Nat.not_lt.mpr h)]

/-- C7 witness: a short content is its own title. -/
theorem C7_witness :
    (("ab" : String).length ≤ 120) ∧ titleOf "ab" = "ab" :=
  ⟨by decide, (C7_title_truncation "a" [] 0 (Row.mk "ab" 0 none none)).2.2.2 (by decide)⟩

/-- C8: the formatted timestamp inside the subtitle is computed from the
stored value shifted by the constant 978307200, rendered as
`YYYY-MM-DD H:MM:SS AM/PM` in the (fixed-offset) local timezone; the
12-hour field lies in 1..12 and is printed without a leading zero. -/
theorem C8_timestamp_format (tz : Int) (r : Row) (n : Nat) :
    subtitleOf tz r
      = linesPart r.item ++ toString r.item.length ++ " characters, copied at "
          ++ fmtEpoch (r.ts + 978307200 + tz).toNat ++ " from " ++ pyShow r.app ∧
    fmtEpoch n = dateStr n ++ " " ++ clockStr n ∧
    clockStr n
      = toString (hourTwelve n) ++ ":" ++ pad2 (n % 86400 % 3600 / 60) ++ ":"
          ++ pad2 (n % 86400 % 60) ++ " " ++ meridiem n ∧
    1 ≤ hourTwelve n ∧ hourTwelve n ≤ 12 ∧
    (toString (hourTwelve n)).front ≠ '0' ∧
    meridiem n = (if n % 86400 / 3600 < 12 then "AM" else "PM") := by
  have hb : 1 ≤ hourTwelve n ∧ hourTwelve n ≤ 12 := by
    unfold hourTwelve
    split
    · exact ⟨by omega, by omega⟩
    · rename_i h
      have hlt : n % 86400 / 3600 % 12 < 12 := Nat.mod_lt _ (by omega)
      exact ⟨by omega, by omega⟩
  have hfront : (toString (hourTwelve n)).front ≠ '0' := by
    obtain ⟨h1, h2⟩ := hb
    set k := hourTwelve n with hk
    interval_cases k <;> decide
  exact ⟨rfl, rfl, rfl, hb.1, hb.2, hfront, rfl⟩

/-- C9: keyword normalization rewrites the spacing voiced sound mark to
the combining mark U+3099 and the spacing semi-voiced mark to U+309A
and then composes canonically, so any two keywords with the same
normalized form — in particular a combining-mark variant and its
precomposed form — produce exactly the same matches on every store. -/
theorem C9_normalization_invariance (kw kw2 : String) (rows : List Row) (tz : Int)
    (h : normalizeKw kw = normalizeKw kw2) :
    markMap '゛' = '゙' ∧ markMap '゜' = '゚' ∧
    search_clipboard kw rows tz = search_clipboard kw2 rows tz := by
  refine ⟨rfl, rfl, ?_⟩
  unfold search_clipboard patOf
  rw [h]

/-- C9 witness: the keyword `か` plus combining voiced mark normalizes
to the precomposed `が` and finds the record containing the precomposed
form. -/
theorem C9_witness :
    normalizeKw "が" = normalizeKw "が" ∧
    (search_clipboard "が" [Row.mk "学校が好き" 3 none none] 0
      = search_clipboard "が" [Row.mk "学校が好き" 3 none none] 0) ∧
    (search_clipboard "が" [Row.mk "学校が好き" 3 none none] 0).length = 1 := by
  have h : normalizeKw "が" = normalizeKw "が" := by decide
  exact ⟨h,
    (C9_normalization_invariance "が" "が" [Row.mk "学校が好き" 3 none none] 0 h).2.2,
    rfl⟩

/-- C10: the whole invocation is deterministic — equal keyword, equal
store state and equal timezone give identical results and identical
serialized output. -/
theorem C10_deterministic (kw kw2 : String) (st st2 : Store) (tz tz2 : Int)
    (h1 : kw = kw2) (h2 : st = st2) (h3 : tz = tz2) :
    search_clipboard_run kw st tz = search_clipboard_run kw2 st2 tz2 ∧
    main_run kw st tz = main_run kw2 st2 tz2 := by
  subst h1
  subst h2
  subst h3
  exact ⟨rfl, rfl⟩

/-- C10 witness: determinism instantiated on a concrete invocation. -/
theorem C10_witness :
    search_clipboard_run "ab" (Store.table [Row.mk "abc" 1 none none]) 0
      = search_clipboard_run "ab" (Store.table [Row.mk "abc" 1 none none]) 0 ∧
    main_run "ab" (Store.table [Row.mk "abc" 1 none none]) 0
      = main_run "ab" (Store.table [Row.mk "abc" 1 none none]) 0 :=
  C10_deterministic "ab" "ab" (Store.table [Row.mk "abc" 1 none none])
    (Store.table [Row.mk "abc" 1 none none]) 0 0 rfl rfl rfl
